import Mathlib

/-!
# Verification of the Oral-Papers-Downloader PDF-resolution pipeline

Shallow embedding of the core resolution/matching logic of
`ConferencePDFDownloader` (src/base.py) and of the ICLR variant
(src/iclr_oral.py), together with proofs of the specification claims.

Conventions of the embedding:
* Python floats are modelled by `ℚ` (all scores are finite sums of
  quotients of small integers, so exact rational arithmetic agrees with
  the intended real-number semantics of the spec).
* Python strings are Lean `String`s; the regex character class `\w` is
  modelled over its ASCII meaning (alphanumerics and underscore), which
  is exact on the ASCII inputs the claims quantify over.
* Byte strings are `List Nat` (one byte per element).
* The filesystem is a partial map from paths to contents; network
  activity is an explicit event log, with responses supplied by oracles.
-/

namespace OralPapers

/-! ## String primitives shared by the pipeline (src/base.py) -/

/-- A `\w` word character in the source's regexes: alphanumeric or underscore. -/
def isWordChar (c : Char) : Bool := c.isAlphanum || c = '_'

/-- Python `str.lower()`. -/
def pyLower (s : String) : String := String.mk (s.data.map Char.toLower)

/-- `re.sub(r'[^\w\s]', ' ', s)`: every character that is neither a word
character nor whitespace becomes a space. -/
def stripPunct (s : String) : String :=
  String.mk (s.data.map (fun c => if isWordChar c || c.isWhitespace then c else ' '))

/-- The maximal runs of characters satisfying `keep`, as strings; `cur`
accumulates the current run in reverse. -/
def splitRunsAux (keep : Char → Bool) (cur : List Char) : List Char → List String
  | [] => if cur.isEmpty then [] else [String.mk cur.reverse]
  | c :: rest =>
      if keep c then splitRunsAux keep (c :: cur) rest
      else if cur.isEmpty then splitRunsAux keep [] rest
      else String.mk cur.reverse :: splitRunsAux keep [] rest

/-- Python `str.split()` with no argument: the maximal non-whitespace
runs, i.e. split on whitespace runs dropping empty pieces. -/
def pySplit (s : String) : List String :=
  splitRunsAux (fun c => ¬ c.isWhitespace) [] s.data

/-! ## Text Similarity Engine (src/base.py lines 261-340) -/

/-- The inner recursion of `lcs_length`: `f` is the LCS length against
the tail of the first sequence, so `lcsRow a f` is the LCS length of
`a :: tail` against its argument. -/
def lcsRow (a : String) (f : List String → Nat) : List String → Nat
  | [] => 0
  | b :: bs => if a = b then f bs + 1 else max (lcsRow a f bs) (f (b :: bs))

/-- Length of the longest common subsequence of two token lists.  The
source's `sequence_similarity` (base.py lines 305-316) computes this value
with the classic O(n·m) dynamic-programming table: `dp[i][j]`, the LCS
length of the length-`i` and length-`j` prefixes, satisfies
`dp[i][j] = dp[i-1][j-1] + 1` on equal elements and
`max (dp[i-1][j]) (dp[i][j-1])` otherwise — exactly the recurrence
unfolded by `lcsRow` (read over suffixes):
`lcs_length (a :: as) (b :: bs)` is `lcs_length as bs + 1` when `a = b`
and `max (lcs_length (a :: as) bs) (lcs_length as (b :: bs))` otherwise. -/
def lcs_length : List String → List String → Nat
  | [] => fun _ => 0
  | a :: as => lcsRow a (lcs_length as)

/-- `sequence_similarity` (base.py lines 299-319): LCS-length ratio over
token sequences, `0` when either sequence is empty. -/
def sequence_similarity (seq1 seq2 : List String) : ℚ :=
  if seq1 = [] ∨ seq2 = [] then 0
  else (lcs_length seq1 seq2 : ℚ) / (max seq1.length seq2.length : ℚ)

/-- `title_similarity` (base.py lines 271-297): `0` on an empty input
string; otherwise lowercase, strip punctuation, tokenize, and blend the
Jaccard similarity of the token sets with the LCS ratio of the token
sequences as `0.6 * jaccard + 0.4 * sequence`. -/
def title_similarity (title1 title2 : String) : ℚ :=
  if title1 = "" ∨ title2 = "" then 0
  else
    let t1 := stripPunct (pyLower title1)
    let t2 := stripPunct (pyLower title2)
    let words1 := (pySplit t1).toFinset
    let words2 := (pySplit t2).toFinset
    if words1 = ∅ ∨ words2 = ∅ then 0
    else
      let jaccard_sim : ℚ := ((words1 ∩ words2).card : ℚ) / ((words1 ∪ words2).card : ℚ)
      let seq_sim := sequence_similarity (pySplit t1) (pySplit t2)
      jaccard_sim * (6/10) + seq_sim * (4/10)

/-- The surname tokens of `extract_last_names` inside `author_similarity`
(base.py lines 327-329): `re.findall(r'\b[A-Z][a-z]+\b', s)` matches
exactly those maximal word-character runs that consist of one uppercase
letter followed by one or more lowercase letters; the matches are then
lowercased into a set. -/
def extract_last_names (s : String) : Finset String :=
  ((pySplitWords s).filter isSurnameToken).map pyLower |>.toFinset
where
  /-- Maximal runs of `\w` characters of a string. -/
  pySplitWords (s : String) : List String :=
    splitRunsAux isWordChar [] s.data
  /-- A token matching `[A-Z][a-z]+` in full. -/
  isSurnameToken (t : String) : Bool :=
    match t.data with
    | [] => false
    | c :: rest => c.isUpper && rest ≠ [] && rest.all Char.isLower

/-- `author_similarity` (base.py lines 321-340): Jaccard similarity of
the lowercased surname-token sets, `0` when either input or either set is
empty. -/
def author_similarity (authors1 authors2 : String) : ℚ :=
  if authors1 = "" ∨ authors2 = "" then 0
  else
    let last_names1 := extract_last_names authors1
    let last_names2 := extract_last_names authors2
    if last_names1 = ∅ ∨ last_names2 = ∅ then 0
    else ((last_names1 ∩ last_names2).card : ℚ) / ((last_names1 ∪ last_names2).card : ℚ)

/-! ## Spec-side restatement of the title-similarity contract (spec §4.1),
used for the refinement claim C4.  It follows the spec's words: normalize,
tokenize, Jaccard over token sets (0 if either set is empty), LCS ratio
over token sequences, final score `0.6 * jaccard + 0.4 * sequence`.
(Division by zero in `ℚ` is `0`, so the LCS ratio of two empty sequences
is `0`.) -/

/-- Jaccard similarity over token sets per spec §4.1: `|A∩B| / |A∪B|`,
`0` if either set is empty. -/
def jaccardSpec (A B : Finset String) : ℚ :=
  if A = ∅ ∨ B = ∅ then 0
  else ((A ∩ B).card : ℚ) / ((A ∪ B).card : ℚ)

/-- `titleSimilarity` as worded in spec §4.1. -/
def titleSimilaritySpec (a b : String) : ℚ :=
  let seqA := pySplit (stripPunct (pyLower a))
  let seqB := pySplit (stripPunct (pyLower b))
  let jaccard := jaccardSpec seqA.toFinset seqB.toFinset
  let seq : ℚ := (lcs_length seqA seqB : ℚ) / (max seqA.length seqB.length : ℚ)
  jaccard * (6/10) + seq * (4/10)

/-! ## Query Builder (src/base.py lines 186-213 and 261-269) -/

/-- The conference-noise stoplist of `search_arxiv` (base.py line 190). -/
def conference_words : List String :=
  ["neurips", "icml", "iclr", "cvpr", "eccv", "aaai", "ijcai", "acl",
   "emnlp", "naacl", "conference", "proceedings", "workshop"]

/-- The English stopword list of `extract_important_words` (base.py line 264). -/
def stop_words : List String :=
  ["the", "a", "an", "and", "or", "but", "in", "on", "at", "to", "for",
   "of", "with", "by", "is", "are", "was", "were", "be", "been", "being"]

/-- The token list of the cleaned title in `search_arxiv` (base.py lines
188-194): punctuation is replaced by spaces, then every `\b`-delimited
word equal (case-insensitively) to a conference word is deleted, then
whitespace is collapsed.  After the punctuation pass every `\w`-word is a
whitespace-separated token, so `\bword\b` matches exactly the tokens that
equal `word`; the surviving tokens joined by single spaces are the cleaned
title. -/
def cleanTitleTokens (title : String) : List String :=
  (pySplit (stripPunct title)).filter
    (fun t => ¬ conference_words.contains (pyLower t))

/-- The cleaned-title string `clean_title` of `search_arxiv`. -/
def cleanTitleStr (title : String) : String :=
  String.intercalate " " (cleanTitleTokens title)

/-- `extract_important_words` (base.py lines 261-269): lowercase, split on
whitespace, drop stopwords and tokens of length at most 3, keep the first
4 in original order. -/
def extract_important_words (text : String) : List String :=
  ((pySplit (pyLower text)).filter
    (fun w => ¬ stop_words.contains w ∧ 3 < w.length)).take 4

/-- The `search_strategies` list built by `search_arxiv` (base.py lines
196-209): no queries when cleaning empties the title; otherwise the
exact-title query, the full-text query, and — when the cleaned title has
more than 5 tokens and at least one important word survives filtering — a
keyword query over the joined important words. -/
def buildQueries (title : String) : List String :=
  let toks := cleanTitleTokens title
  if toks = [] then []
  else
    let ct := cleanTitleStr title
    let base := ["ti:\"" ++ ct ++ "\"", "all:\"" ++ ct ++ "\""]
    if 5 < toks.length then
      let iw := extract_important_words ct
      if iw = [] then base
      else base ++ ["all:\"" ++ String.intercalate " " iw ++ "\""]
    else base

/-! ## Match Selector: the candidate loop of `search_arxiv`
(src/base.py lines 226-249) -/

/-- One parsed entry of an arXiv API response: title text, author names,
and the `href` of the `link` element with `title='pdf'` when present. -/
structure SearchEntry where
  title : String
  authors : List String
  pdf_href : Option String
deriving Repr, DecidableEq

/-- The combined matching score of base.py line 239:
`title_score * 0.7 + author_score * 0.3`, where the author strings of the
entry are joined by single spaces (line 236). -/
def combinedScore (clean_title target_authors : String) (e : SearchEntry) : ℚ :=
  title_similarity clean_title e.title * (7/10)
    + author_similarity target_authors (String.intercalate " " e.authors) * (3/10)

/-- One iteration of the candidate loop (base.py lines 229-245) acting on
the accumulator `(best_match, best_score)`: an entry whose combined score
strictly exceeds both the running best score and `0.4` updates
`best_score`, and updates `best_match` only when it also carries a PDF
link. -/
def selectStep (clean_title target_authors : String)
    (acc : Option String × ℚ) (e : SearchEntry) : Option String × ℚ :=
  let total := combinedScore clean_title target_authors e
  if acc.2 < total ∧ (4/10 : ℚ) < total then
    match e.pdf_href with
    | some href => (some href, total)
    | none => (acc.1, total)
  else acc

/-- The candidate-selection loop of `search_arxiv` (base.py lines
226-249): fold `selectStep` over the entries starting from
`(None, 0)`; the first component of the result is the returned
`best_match`. -/
def search_arxiv_select (clean_title target_authors : String)
    (entries : List SearchEntry) : Option String × ℚ :=
  entries.foldl (selectStep clean_title target_authors) (none, 0)

/-- `selectBest` as worded in spec §4.4, for the refinement claim C3:
consider only entries with a present PDF link, track the single
highest-scoring candidate with combined score strictly above `0.4`, ties
keeping the first encountered, and return its URL (or `None`). -/
def selectBestSpec (clean_title target_authors : String)
    (entries : List SearchEntry) : Option String :=
  ((entries.filter (fun e => e.pdf_href.isSome)).foldl
    (fun (acc : Option (String × ℚ)) e =>
      let sc := combinedScore clean_title target_authors e
      match acc with
      | some best => if best.2 < sc then some (e.pdf_href.getD "", sc) else acc
      | none => if (4/10 : ℚ) < sc then some (e.pdf_href.getD "", sc) else none)
    none).map (fun best => best.1)

/-! ## Filename sanitization -/

/-- Python `str.strip()` on a character list: drop whitespace from both
ends. -/
def pyStripChars (l : List Char) : List Char :=
  ((l.dropWhile Char.isWhitespace).reverse.dropWhile Char.isWhitespace).reverse

/-- `clean_filename` (base.py lines 409-411, identically icml_oral.py
lines 135-137): map every character that is neither alphanumeric nor one
of space, period, underscore to an underscore, strip surrounding
whitespace, and truncate to 150 characters. -/
def clean_filename (filename : String) : String :=
  String.mk
    ((pyStripChars (filename.data.map
      (fun c => if c.isAlphanum || c = ' ' || c = '.' || c = '_' then c else '_'))).take 150)

/-- The illegal-character list of the ICLR variant's `clean_filename`
(iclr_oral.py line 183). -/
def iclr_illegal_chars : List Char :=
  ['<', '>', ':', '"', '/', '\\', '|', '?', '*', '\n', '\r', '\t']

/-- `clean_filename` of iclr_oral.py (lines 180-194): replace each illegal
character by an underscore, collapse whitespace runs to single spaces,
truncate to 150 characters, strip. -/
def iclr_clean_filename (filename : String) : String :=
  let s1 := String.mk
    (filename.data.map (fun c => if iclr_illegal_chars.contains c then '_' else c))
  let s2 := String.intercalate " " (pySplit s1)
  let s3 := if 150 < s2.length then String.mk (s2.data.take 150) else s2
  String.mk (pyStripChars s3.data)

/-! ## Content Verifier (`download_pdf`, src/base.py lines 358-407) -/

/-- Contiguous-occurrence test, Python's `pat in data`. -/
def containsSeq {α : Type} [DecidableEq α] (pat : List α) : List α → Bool
  | [] => pat.isEmpty
  | a :: rest => pat.isPrefixOf (a :: rest) || containsSeq pat rest

/-- Python's substring test `pat in s`. -/
def strContains (pat s : String) : Bool := containsSeq pat.data s.data

/-- The filesystem: a partial map from paths to byte contents. -/
def FileSys : Type := String → Option (List Nat)

/-- An HTTP response: status code, `content-type` header, full body bytes. -/
structure HttpResponse where
  status : Nat
  contentType : String
  body : List Nat

/-- The bytes of the PDF magic signature `%PDF`. -/
def pdfMagic : List Nat := [37, 80, 68, 70]

/-- `download_pdf` (base.py lines 358-407) as a transformer of the
filesystem, given the response for the URL: on a 200 response, reject
without writing when the content type contains `text/html` or the first
100 body bytes lack `%PDF`; otherwise persist the body and remove it
again (rejecting) when it is smaller than 1024 bytes.  Any non-200 status
is a failure without filesystem effect. -/
def download_pdf (filename : String) (resp : HttpResponse) (fs : FileSys) :
    Bool × FileSys :=
  if resp.status = 200 then
    if strContains "text/html" (pyLower resp.contentType) then (false, fs)
    else if ¬ containsSeq pdfMagic (resp.body.take 100) then (false, fs)
    else
      let fs1 : FileSys := fun p => if p = filename then some resp.body else fs p
      if resp.body.length < 1024 then
        (false, fun p => if p = filename then none else fs1 p)
      else (true, fs1)
  else (false, fs)

/-! ## Resolution Orchestrator (`download_single_paper`, src/base.py
lines 413-451, and the ICLR variant, src/iclr_oral.py lines 239-278)

Network sub-operations are oracles: each HTTP request made by the code
appends the requested URL to the world's request log, and the oracle
supplies the (parsed) outcome.  `search_arxiv`'s internal API requests
are collapsed into one logged search request whose outcome the oracle
supplies, which is sound for the claims proved here: what matters is
that any network activity grows the log. -/

/-- A scraped paper record with its optional resolution annotations
(the keys `download_single_paper` adds to the paper dict). -/
structure Paper where
  id : String
  title : String
  paper_page_url : String
  authors : String
  abstract : String
  local_pdf_path : Option String := none
  download_status : Option String := none
  download_method : Option String := none
  pdf_url : Option String := none
  openreview_url : Option String := none
  file_size : Option Nat := none

/-- Oracles for the network: the OpenReview href scraped from a paper
page (None models both "no link found" and fetch errors), the PDF URL
produced by `find_pdf_through_search` for a (title, authors) pair, and
the HTTP response for a GET of a URL. -/
structure Net where
  openreviewHref : String → Option String
  arxivSearchResult : String → String → Option String
  response : String → HttpResponse

/-- The mutable world: filesystem plus the log of issued requests. -/
structure World where
  fs : FileSys
  requests : List String

/-- `get_pdf_url_from_openreview` (base.py lines 163-170, identical in
iclr_oral.py lines 167-178): on a URL containing `forum?id=`, take the
segment after the first occurrence up to the first `&` and substitute it
into the canonical PDF path. -/
def get_pdf_url_from_openreview (openreview_url : String) : Option String :=
  if openreview_url = "" then none
  else
    match openreview_url.splitOn "forum?id=" with
    | _ :: part :: _ =>
        some ("https://openreview.net/pdf?id=" ++ (part.splitOn "&").headD "")
    | _ => none

/-- The target path of base.py line 418:
`save_dir/pdfs/{paper_id}_{safe_title}.pdf`. -/
def base_pdf_path (save_dir : String) (paper : Paper) : String :=
  save_dir ++ "/pdfs/" ++ paper.id ++ "_" ++ clean_filename paper.title ++ ".pdf"

/-- A `download_pdf` call of base.py: one GET of the PDF URL (logged),
then the verification/persistence of `download_pdf`. -/
def download_pdf_base (net : Net) (pdf_url filename : String) (w : World) :
    Bool × World :=
  let resp := net.response pdf_url
  let out := download_pdf filename resp w.fs
  (out.1, { fs := out.2, requests := w.requests ++ [pdf_url] })

/-- The arXiv fallback of `download_single_paper` (base.py lines
440-451): one logged search (standing for `find_pdf_through_search`'s
rate-limited API requests), then on a hit a download attempt. -/
def download_single_paper_search (net : Net) (pdf_filename : String)
    (paper : Paper) (w : World) : Paper × World :=
  let w1 : World :=
    { w with requests := w.requests ++ ["arxiv-search:" ++ paper.title] }
  match net.arxivSearchResult paper.title paper.authors with
  | some u =>
      let out := download_pdf_base net u pdf_filename w1
      if out.1 then
        ({ paper with local_pdf_path := some pdf_filename,
                      download_status := some "success",
                      download_method := some "arxiv",
                      pdf_url := some u }, out.2)
      else
        ({ paper with download_status := some "failed",
                      download_method := some "none" }, out.2)
  | none =>
      ({ paper with download_status := some "failed",
                    download_method := some "none" }, w1)

/-- `download_single_paper` (base.py lines 413-451): short-circuit to
status `exists` when the target path is occupied, preserving the paper's
metadata; otherwise try the OpenReview route (one logged page fetch, the
pure forum-to-pdf transform, a verified download), then the arXiv search
fallback. -/
def download_single_paper (net : Net) (save_dir : String) (paper : Paper)
    (w : World) : Paper × World :=
  match w.fs (base_pdf_path save_dir paper) with
  | some _ =>
      ({ paper with local_pdf_path := some (base_pdf_path save_dir paper),
                    download_status := some "exists",
                    download_method := some "existing" }, w)
  | none =>
      let w1 : World :=
        { w with requests := w.requests ++ [paper.paper_page_url] }
      let pdf_url : Option String :=
        match net.openreviewHref paper.paper_page_url with
        | some u => get_pdf_url_from_openreview u
        | none => none
      match pdf_url with
      | some u =>
          let out := download_pdf_base net u (base_pdf_path save_dir paper) w1
          if out.1 then
            ({ paper with local_pdf_path := some (base_pdf_path save_dir paper),
                          download_status := some "success",
                          download_method := some "openreview",
                          pdf_url := some u }, out.2)
          else download_single_paper_search net (base_pdf_path save_dir paper) paper out.2
      | none => download_single_paper_search net (base_pdf_path save_dir paper) paper w1

/-- The target path of iclr_oral.py line 246:
`save_dir/pdfs/ICLR{year}_{paper_id}_{safe_title}.pdf`. -/
def iclr_pdf_path (save_dir : String) (year : Nat) (paper : Paper) : String :=
  save_dir ++ "/pdfs/ICLR" ++ toString year ++ "_" ++ paper.id ++ "_"
    ++ iclr_clean_filename paper.title ++ ".pdf"

/-- The retry loop of iclr_oral.py's `download_pdf` (lines 201-237) with
explicit fuel (`max_retries=3`): each attempt is one logged GET; a 200
response is persisted and rejected post-hoc below 1000 bytes, a 404 stops
retrying, any other status retries. -/
def iclr_download_pdf_go (net : Net) (pdf_url filename : String) :
    Nat → World → Bool × World
  | 0, w => (false, w)
  | n + 1, w =>
      let w1 : World := { w with requests := w.requests ++ [pdf_url] }
      let resp := net.response pdf_url
      if resp.status = 200 then
        let fs1 : FileSys := fun p => if p = filename then some resp.body else w1.fs p
        if resp.body.length < 1000 then
          (false, { w1 with fs := fun p => if p = filename then none else fs1 p })
        else (true, { w1 with fs := fs1 })
      else if resp.status = 404 then (false, w1)
      else iclr_download_pdf_go net pdf_url filename n w1

/-- `download_pdf` of iclr_oral.py (lines 196-237). -/
def iclr_download_pdf (net : Net) (pdf_url filename : String) (w : World) :
    Bool × World :=
  if pdf_url = "" then (false, w)
  else iclr_download_pdf_go net pdf_url filename 3 w

/-- The existence guard of iclr_oral.py line 249:
`os.path.exists(pdf_filename) and os.path.getsize(pdf_filename) > 10000`. -/
def iclr_exists_big (w : World) (path : String) : Bool :=
  match w.fs path with
  | some content => decide (10000 < content.length)
  | none => false

/-- `download_single_paper` of iclr_oral.py (lines 239-278), returning
the `{'status': ..., 'paper': ...}` pair: short-circuit to `exists` when
the target file exists with more than 10000 bytes; otherwise OpenReview
lookup (one logged fetch standing for the retried fetches, whose outcome
the oracle fixes), the forum-to-pdf transform, and the download. -/
def iclr_download_single_paper (net : Net) (save_dir : String) (year : Nat)
    (paper : Paper) (w : World) : (String × Paper) × World :=
  if iclr_exists_big w (iclr_pdf_path save_dir year paper) then
    (("exists",
      { paper with local_pdf_path := some (iclr_pdf_path save_dir year paper),
                   download_status := some "exists" }), w)
  else
    let w1 : World :=
      { w with requests := w.requests ++ [paper.paper_page_url] }
    match net.openreviewHref paper.paper_page_url with
    | none =>
        (("no_openreview",
          { paper with download_status := some "no_openreview" }), w1)
    | some oru =>
        match get_pdf_url_from_openreview oru with
        | none =>
            (("no_pdf_url",
              { paper with download_status := some "no_pdf_url" }), w1)
        | some pu =>
            let paper1 := { paper with openreview_url := some oru, pdf_url := some pu }
            let out := iclr_download_pdf net pu (iclr_pdf_path save_dir year paper) w1
            if out.1 then
              (("success",
                { paper1 with
                    local_pdf_path := some (iclr_pdf_path save_dir year paper),
                    download_status := some "success",
                    file_size :=
                      (out.2.fs (iclr_pdf_path save_dir year paper)).map List.length }),
               out.2)
            else
              (("download_failed",
                { paper1 with download_status := some "download_failed" }), out.2)

/-! ## Rate-Limited Search Client (`wait_for_arxiv_rate_limit`,
src/base.py lines 172-179) under a mocked clock

Time advances only inside `time.sleep`, by exactly the slept duration;
`jitter` is the value drawn from `random.uniform(1.0, 3.0)`. -/

/-- The clock together with the shared `arxiv_last_request_time`. -/
structure RateState where
  now : ℚ
  last : ℚ

/-- `wait_for_arxiv_rate_limit` (base.py lines 172-179): if less than
`interval` has elapsed since `last`, sleep the deficit plus the jitter;
then stamp `last` with the post-sleep clock — after the wait, before the
caller issues its request. -/
def wait_for_arxiv_rate_limit (interval jitter : ℚ) (s : RateState) : RateState :=
  let time_since := s.now - s.last
  if time_since < interval then
    let now1 := s.now + ((interval - time_since) + jitter)
    { now := now1, last := now1 }
  else { now := s.now, last := s.now }

/-- One `search_arxiv` call (base.py lines 181-259) under the mocked
clock: a single `wait_for_arxiv_rate_limit` at line 185, then `k` HTTP
GETs — one per attempted strategy, `1 ≤ k ≤ 3`, a later strategy being
attempted when the previous one was blocked, raised, or produced no
acceptable match (lines 211-253) — issued back-to-back with no further
wait between them.  Time advances only inside sleep, so all `k` requests
leave at the post-wait instant.  Returns the list of wall-clock request
times in order and the resulting state. -/
def search_arxiv_call (interval jitter : ℚ) (k : Nat) (s : RateState) :
    List ℚ × RateState :=
  let s1 := wait_for_arxiv_rate_limit interval jitter s
  (List.replicate k s1.now, s1)

/-! ## The rate limiter under two concurrent workers

`download_all_papers` (base.py lines 453-460) runs `download_single_paper`
on a `ThreadPoolExecutor` with `max_workers=2`; both workers reach
`wait_for_arxiv_rate_limit` on the same instance, whose body is plain
unsynchronized attribute access.  The interleaving model below gives each
worker the four primitive steps of lines 174-179 and 216 — read the clock
and `arxiv_last_request_time`, sleep as decided from the read values,
write `arxiv_last_request_time`, issue the request — scheduled in any
order, exactly because the source has no critical section around them. -/

/-- Shared state and per-worker program counters for two workers `A` and
`B` executing `wait_for_arxiv_rate_limit` then a request. -/
structure RaceState where
  now : ℚ
  last : ℚ
  readNowA : ℚ
  readLastA : ℚ
  readNowB : ℚ
  readLastB : ℚ
  pcA : Nat
  pcB : Nat
  reqA : Option ℚ
  reqB : Option ℚ

/-- One step of worker `A` (`w = true`) or `B` (`w = false`): step 0
reads `time.time()` and `arxiv_last_request_time` (lines 174-175), step 1
sleeps as decided from its own read values (lines 176-178, with that
worker's jitter draw), step 2 writes `arxiv_last_request_time` (line
179), step 3 issues the request (line 216). -/
def raceStep (interval jitterA jitterB : ℚ) (w : Bool) (s : RaceState) : RaceState :=
  if w then
    match s.pcA with
    | 0 => { s with readNowA := s.now, readLastA := s.last, pcA := 1 }
    | 1 =>
        let since := s.readNowA - s.readLastA
        if since < interval then
          { s with now := s.now + ((interval - since) + jitterA), pcA := 2 }
        else { s with pcA := 2 }
    | 2 => { s with last := s.now, pcA := 3 }
    | 3 => { s with reqA := some s.now, pcA := 4 }
    | _ => s
  else
    match s.pcB with
    | 0 => { s with readNowB := s.now, readLastB := s.last, pcB := 1 }
    | 1 =>
        let since := s.readNowB - s.readLastB
        if since < interval then
          { s with now := s.now + ((interval - since) + jitterB), pcB := 2 }
        else { s with pcB := 2 }
    | 2 => { s with last := s.now, pcB := 3 }
    | 3 => { s with reqB := some s.now, pcB := 4 }
    | _ => s

/-- Run a schedule (the interleaving choice at each step). -/
def raceRun (interval jitterA jitterB : ℚ) (sched : List Bool) (s : RaceState) :
    RaceState :=
  sched.foldl (fun st w => raceStep interval jitterA jitterB w st) s

/-- Both workers poised at the start of `wait_for_arxiv_rate_limit`, the
previous stamp at time 0, the clock at time 5. -/
def raceInit : RaceState :=
  { now := 5, last := 0, readNowA := 0, readLastA := 0, readNowB := 0,
    readLastB := 0, pcA := 0, pcB := 0, reqA := none, reqB := none }

/-! ## Helper lemmas -/

theorem lcs_length_nil_right (l : List String) : lcs_length l [] = 0 := by
  cases l <;> rfl

theorem lcs_length_self (l : List String) : lcs_length l l = l.length := by
  induction l with
  | nil => rfl
  | cons a as ih => simp [lcs_length, lcsRow, ih]

theorem pySplit_empty : pySplit (stripPunct (pyLower "")) = [] := rfl

theorem mem_of_mem_pyStripChars {c : Char} {l : List Char}
    (h : c ∈ pyStripChars l) : c ∈ l := by
  unfold pyStripChars at h
  have h1 := List.mem_reverse.mp h
  have h2 : c ∈ (l.dropWhile Char.isWhitespace).reverse :=
    ((List.dropWhile_suffix _).sublist).subset h1
  have h3 := List.mem_reverse.mp h2
  exact ((List.dropWhile_suffix _).sublist).subset h3

/-! ## Claim theorems -/

/-- Claim C4: `title_similarity` agrees everywhere with the spec-worded
formula: normalize (strip punctuation, lowercase) and whitespace-tokenize
both strings, then return `0.6 * J + 0.4 * S` where `J` is the Jaccard
similarity of the token sets (0 if either is empty) and `S` is the
LCS-over-max-length ratio of the token sequences. -/
theorem title_similarity_eq_titleSimilaritySpec (a b : String) :
    title_similarity a b = titleSimilaritySpec a b := by
  have hspec0 : ∀ x y : String,
      pySplit (stripPunct (pyLower x)) = [] ∨ pySplit (stripPunct (pyLower y)) = [] →
      titleSimilaritySpec x y = 0 := by
    intro x y hxy
    rcases hxy with hx | hy
    · simp [titleSimilaritySpec, jaccardSpec, hx, lcs_length]
    · simp [titleSimilaritySpec, jaccardSpec, hy, lcs_length_nil_right]
  by_cases hA : pySplit (stripPunct (pyLower a)) = []
  · have hL : title_similarity a b = 0 := by
      unfold title_similarity
      split_ifs with h1
      · rfl
      · simp [hA]
    rw [hL, hspec0 a b (Or.inl hA)]
  · by_cases hB : pySplit (stripPunct (pyLower b)) = []
    · have hL : title_similarity a b = 0 := by
        unfold title_similarity
        split_ifs with h1
        · rfl
        · simp [hB]
      rw [hL, hspec0 a b (Or.inr hB)]
    · have ha : a ≠ "" := by rintro rfl; exact hA pySplit_empty
      have hb : b ≠ "" := by rintro rfl; exact hB pySplit_empty
      have hA' : (pySplit (stripPunct (pyLower a))).toFinset ≠ ∅ := by
        simpa [List.toFinset_eq_empty_iff] using hA
      have hB' : (pySplit (stripPunct (pyLower b))).toFinset ≠ ∅ := by
        simpa [List.toFinset_eq_empty_iff] using hB
      simp only [title_similarity, titleSimilaritySpec, jaccardSpec,
        sequence_similarity, ha, hb, hA, hB, hA', hB', or_self, if_false,
        if_neg, not_false_eq_true]

/-- Claim C9: a title whose normalized token sequence is non-empty is
perfectly similar to itself. -/
theorem title_similarity_self (t : String)
    (h : pySplit (stripPunct (pyLower t)) ≠ []) :
    title_similarity t t = 1 := by
  have ht : t ≠ "" := by rintro rfl; exact h pySplit_empty
  have hfin : (pySplit (stripPunct (pyLower t))).toFinset ≠ ∅ := by
    simpa [List.toFinset_eq_empty_iff] using h
  have hcard : ((pySplit (stripPunct (pyLower t))).toFinset.card : ℚ) ≠ 0 := by
    exact_mod_cast (Finset.card_pos.mpr (Finset.nonempty_iff_ne_empty.mpr hfin)).ne'
  have hlen : ((pySplit (stripPunct (pyLower t))).length : ℚ) ≠ 0 := by
    exact_mod_cast (List.length_pos.mpr h).ne'
  simp only [title_similarity, sequence_similarity, ht, or_self, if_false, h,
    if_neg hfin, lcs_length_self, Finset.inter_self, Finset.union_self, max_self]
  rw [div_self hcard, div_self hlen]
  norm_num

/-- Claim C9 witness: the theorem applied to the concrete title
`"Deep Learning"`. -/
theorem title_similarity_self_witness :
    pySplit (stripPunct (pyLower "Deep Learning")) ≠ [] ∧
    title_similarity "Deep Learning" "Deep Learning" = 1 :=
  ⟨by decide, title_similarity_self "Deep Learning" (by decide)⟩

/-- Claim C10: `clean_filename` always yields a string of at most 150
characters, each of which is alphanumeric, a space, a period or an
underscore. -/
theorem clean_filename_safe (s : String) :
    (clean_filename s).length ≤ 150 ∧
    ((clean_filename s).data.all
      (fun c => c.isAlphanum || c = ' ' || c = '.' || c = '_')) = true := by
  constructor
  · exact List.length_take_le 150
      (pyStripChars (s.data.map
        (fun c => if c.isAlphanum || c = ' ' || c = '.' || c = '_' then c else '_')))
  · rw [List.all_eq_true]
    intro c hc
    have h1 : c ∈ pyStripChars (s.data.map
        (fun x => if x.isAlphanum || x = ' ' || x = '.' || x = '_' then x else '_')) := by
      exact List.mem_of_mem_take (by simpa [clean_filename] using hc)
    have h2 := mem_of_mem_pyStripChars h1
    obtain ⟨x, -, rfl⟩ := List.mem_map.mp h2
    by_cases hx : (x.isAlphanum || x = ' ' || x = '.' || x = '_') = true
    · simp [hx]
    · simp [hx]

/-- Claim C7 counterexample: `"the and or but in on"` cleans to six
tokens (more than 5), yet `buildQueries` emits only 2 variants because
every token is a stopword, contradicting the claim that a cleaned title
with more than 5 tokens always yields exactly 3 variants. -/
theorem buildQueries_six_stopwords :
    5 < (cleanTitleTokens "the and or but in on").length ∧
    (buildQueries "the and or but in on").length = 2 := by decide

/-- Claim C7 (amended): the query builder emits, in order, the
exact-phrase and full-text queries over the cleaned title; a cleaned
title of at most 5 tokens gives exactly 2 variants; more than 5 tokens
give 3 variants exactly when at least one important word (non-stopword
token longer than 3 characters) survives, the third variant built from
at most 4 such keywords, and 2 variants otherwise; an empty cleaned title
gives no queries. -/
theorem buildQueries_characterization (title : String) :
    (buildQueries title).length =
      (if cleanTitleTokens title = [] then 0
       else if (cleanTitleTokens title).length ≤ 5 then 2
       else if extract_important_words (cleanTitleStr title) = [] then 2 else 3)
    ∧ (buildQueries title).take 2 =
      (if cleanTitleTokens title = [] then []
       else ["ti:\"" ++ cleanTitleStr title ++ "\"",
             "all:\"" ++ cleanTitleStr title ++ "\""])
    ∧ (extract_important_words (cleanTitleStr title)).length ≤ 4
    ∧ (buildQueries title).drop 2 =
      (if cleanTitleTokens title ≠ [] ∧ 5 < (cleanTitleTokens title).length
          ∧ extract_important_words (cleanTitleStr title) ≠ []
       then ["all:\"" ++ String.intercalate " "
               (extract_important_words (cleanTitleStr title)) ++ "\""]
       else []) := by
  have hkw : (extract_important_words (cleanTitleStr title)).length ≤ 4 :=
    List.length_take_le 4 _
  unfold buildQueries
  by_cases h0 : cleanTitleTokens title = []
  · simp [h0, hkw]
  · by_cases h5 : (cleanTitleTokens title).length ≤ 5
    · have h5' : ¬ 5 < (cleanTitleTokens title).length := not_lt.mpr h5
      simp [h0, h5, h5', hkw]
    · have h5' : 5 < (cleanTitleTokens title).length := not_le.mp h5
      by_cases hiw : extract_important_words (cleanTitleStr title) = []
      · simp [h0, h5, h5', hiw, hkw]
      · simp [h0, h5, h5', hiw, hkw]

/-! ## Lemmas about the candidate-selection fold -/

theorem selectStep_pos_some {ct ta : String} {m : Option String} {b : ℚ}
    {e : SearchEntry} {href : String}
    (hcond : b < combinedScore ct ta e ∧ (4/10 : ℚ) < combinedScore ct ta e)
    (hhref : e.pdf_href = some href) :
    selectStep ct ta (m, b) e = (some href, combinedScore ct ta e) := by
  simp only [selectStep]
  rw [if_pos hcond, hhref]

theorem selectStep_pos_none {ct ta : String} {m : Option String} {b : ℚ}
    {e : SearchEntry}
    (hcond : b < combinedScore ct ta e ∧ (4/10 : ℚ) < combinedScore ct ta e)
    (hhref : e.pdf_href = none) :
    selectStep ct ta (m, b) e = (m, combinedScore ct ta e) := by
  simp only [selectStep]
  rw [if_pos hcond, hhref]

theorem selectStep_neg {ct ta : String} {m : Option String} {b : ℚ}
    {e : SearchEntry}
    (hcond : ¬(b < combinedScore ct ta e ∧ (4/10 : ℚ) < combinedScore ct ta e)) :
    selectStep ct ta (m, b) e = (m, b) := by
  simp only [selectStep]
  rw [if_neg hcond]

/-- Soundness of the candidate fold: a returned URL either was already in
the accumulator, or stems from an entry carrying that URL as PDF link
whose combined score strictly exceeds `0.4`, the starting best score, and
the scores of all earlier entries. -/
theorem selectStep_fold_sound (ct ta : String) (url : String) :
    ∀ (es : List SearchEntry) (m : Option String) (b : ℚ),
      (es.foldl (selectStep ct ta) (m, b)).1 = some url →
      m = some url ∨
      ∃ l₁ e l₂, es = l₁ ++ e :: l₂ ∧ e.pdf_href = some url ∧
        (4/10 : ℚ) < combinedScore ct ta e ∧ b < combinedScore ct ta e ∧
        ∀ a ∈ l₁, combinedScore ct ta a < combinedScore ct ta e := by
  intro es
  induction es with
  | nil => intro m b h; exact Or.inl h
  | cons e es ih =>
    intro m b h
    rw [List.foldl_cons] at h
    by_cases hcond : b < combinedScore ct ta e ∧ (4/10 : ℚ) < combinedScore ct ta e
    · cases hhref : e.pdf_href with
      | some href =>
        rw [selectStep_pos_some hcond hhref] at h
        rcases ih _ _ h with heq | ⟨l₁, e', l₂, hsplit, h1, h2, h3, h4⟩
        · refine Or.inr ⟨[], e, es, rfl, ?_, hcond.2, hcond.1, by simp⟩
          rw [hhref]; exact heq
        · subst hsplit
          refine Or.inr ⟨e :: l₁, e', l₂, rfl, h1, h2, lt_trans hcond.1 h3, ?_⟩
          intro x hx
          rcases List.mem_cons.mp hx with rfl | hx'
          · exact h3
          · exact h4 x hx'
      | none =>
        rw [selectStep_pos_none hcond hhref] at h
        rcases ih _ _ h with heq | ⟨l₁, e', l₂, hsplit, h1, h2, h3, h4⟩
        · exact Or.inl heq
        · subst hsplit
          refine Or.inr ⟨e :: l₁, e', l₂, rfl, h1, h2, lt_trans hcond.1 h3, ?_⟩
          intro x hx
          rcases List.mem_cons.mp hx with rfl | hx'
          · exact h3
          · exact h4 x hx'
    · rw [selectStep_neg hcond] at h
      rcases ih _ _ h with heq | ⟨l₁, e', l₂, hsplit, h1, h2, h3, h4⟩
      · exact Or.inl heq
      · subst hsplit
        refine Or.inr ⟨e :: l₁, e', l₂, rfl, h1, h2, h3, ?_⟩
        intro x hx
        rcases List.mem_cons.mp hx with rfl | hx'
        · rcases not_and_or.mp hcond with hb | h04
          · exact lt_of_le_of_lt (not_lt.mp hb) h3
          · exact lt_of_le_of_lt (not_lt.mp h04) h2
        · exact h4 x hx'

/-- If no entry clears the `0.4` threshold, a fold started with no
candidate returns no candidate. -/
theorem selectStep_fold_none (ct ta : String) :
    ∀ (es : List SearchEntry) (b : ℚ),
      (∀ e ∈ es, combinedScore ct ta e ≤ 4/10) →
      (es.foldl (selectStep ct ta) (none, b)).1 = none := by
  intro es
  induction es with
  | nil => intro b _; rfl
  | cons e es ih =>
    intro b hall
    rw [List.foldl_cons, selectStep_neg (by
      rintro ⟨-, h2⟩
      exact absurd h2 (not_lt.mpr (hall e (List.mem_cons_self e es))))]
    exact ih b (fun x hx => hall x (List.mem_cons_of_mem _ hx))

/-- Claim C2: a URL returned by the candidate loop of `search_arxiv`
always belongs to an entry whose combined score
`0.7 * title_score + 0.3 * author_score` is strictly above `0.4`, and
when every entry scores at most `0.4` no candidate is returned. -/
theorem search_arxiv_select_threshold (ct ta : String)
    (entries : List SearchEntry) :
    (∀ url, (search_arxiv_select ct ta entries).1 = some url →
       ∃ e ∈ entries, e.pdf_href = some url ∧
         (4/10 : ℚ) < combinedScore ct ta e)
    ∧ ((∀ e ∈ entries, combinedScore ct ta e ≤ 4/10) →
       (search_arxiv_select ct ta entries).1 = none) := by
  constructor
  · intro url h
    rcases selectStep_fold_sound ct ta url entries none 0 h with h' | h'
    · cases h'
    · rcases h' with ⟨l₁, e, l₂, hsplit, h1, h2, -, -⟩
      exact ⟨e, by rw [hsplit]; simp, h1, h2⟩
  · exact selectStep_fold_none ct ta entries 0

/-- Claim C2 witness: the theorem applied to a perfect-match entry list
(a candidate is returned with score `1 > 0.4`) and to a no-overlap entry
list (every score is `0 ≤ 0.4`, nothing is returned). -/
theorem search_arxiv_select_threshold_witness :
    (∃ e ∈ [SearchEntry.mk "alpha beta" ["John Smith"] (some "http://x/pdf")],
       e.pdf_href = some "http://x/pdf" ∧
       (4/10 : ℚ) < combinedScore "alpha beta" "John Smith" e)
    ∧ (search_arxiv_select "gamma" "Jones"
        [SearchEntry.mk "delta" ["Ann Wu"] (some "http://y/pdf")]).1 = none :=
  ⟨(search_arxiv_select_threshold "alpha beta" "John Smith"
      [SearchEntry.mk "alpha beta" ["John Smith"] (some "http://x/pdf")]).1
      "http://x/pdf" (of_decide_eq_true (by with_unfolding_all rfl)),
   (search_arxiv_select_threshold "gamma" "Jones"
      [SearchEntry.mk "delta" ["Ann Wu"] (some "http://y/pdf")]).2
      (of_decide_eq_true (by with_unfolding_all rfl))⟩

/-- The entry list refuting claim C3: a perfect-scoring entry without a
PDF link precedes an equally perfect entry with one. -/
def maskingEntries : List SearchEntry :=
  [⟨"alpha beta", ["John Smith"], none⟩,
   ⟨"alpha beta", ["John Smith"], some "http://x/pdf"⟩]

/-- Claim C3 counterexample: on `maskingEntries` the spec-worded selector
(only link-carrying entries considered, highest acceptable score wins)
returns the second entry's URL, whose combined score `1` is acceptable,
but the code returns no candidate: the link-less first entry raised the
running best score to `1`, masking the link-carrying entry. -/
theorem search_arxiv_select_masking :
    (search_arxiv_select "alpha beta" "John Smith" maskingEntries).1 = none
    ∧ selectBestSpec "alpha beta" "John Smith" maskingEntries = some "http://x/pdf"
    ∧ (4/10 : ℚ) < combinedScore "alpha beta" "John Smith"
        (SearchEntry.mk "alpha beta" ["John Smith"] (some "http://x/pdf")) :=
  of_decide_eq_true (by with_unfolding_all rfl)

/-- Claim C3 (amended): a URL returned by the candidate loop belongs to
an entry with a present PDF link whose combined score is strictly above
`0.4` and strictly above the scores of *all* earlier entries — including
entries without a PDF link, since those also update the running best
score and can thereby mask later acceptable link-carrying entries — and
no candidate is returned when every entry scores at most `0.4`. -/
theorem search_arxiv_select_dominance (ct ta : String)
    (entries : List SearchEntry) :
    (∀ url, (search_arxiv_select ct ta entries).1 = some url →
       ∃ l₁ e l₂, entries = l₁ ++ e :: l₂ ∧ e.pdf_href = some url ∧
         (4/10 : ℚ) < combinedScore ct ta e ∧
         ∀ a ∈ l₁, combinedScore ct ta a < combinedScore ct ta e)
    ∧ ((∀ e ∈ entries, combinedScore ct ta e ≤ 4/10) →
       (search_arxiv_select ct ta entries).1 = none) := by
  constructor
  · intro url h
    rcases selectStep_fold_sound ct ta url entries none 0 h with h' | h'
    · cases h'
    · rcases h' with ⟨l₁, e, l₂, hsplit, h1, h2, -, h4⟩
      exact ⟨l₁, e, l₂, hsplit, h1, h2, h4⟩
  · exact selectStep_fold_none ct ta entries 0

/-- Claim C3 (amended) witness: the amended theorem applied to a
two-entry list whose second, higher-scoring entry is selected, and to a
no-overlap list where nothing is returned. -/
theorem search_arxiv_select_dominance_witness :
    (∃ l₁ e l₂,
       [SearchEntry.mk "mu nu xi" ["Ada King"] (some "http://a/pdf"),
        SearchEntry.mk "mu nu" ["Ada King"] (some "http://b/pdf")] =
         l₁ ++ e :: l₂ ∧ e.pdf_href = some "http://b/pdf" ∧
       (4/10 : ℚ) < combinedScore "mu nu" "Ada King" e ∧
       ∀ a ∈ l₁, combinedScore "mu nu" "Ada King" a
         < combinedScore "mu nu" "Ada King" e)
    ∧ (search_arxiv_select "mu nu" "Ada King"
        [SearchEntry.mk "rho" ["Bob Cole"] (some "http://c/pdf")]).1 = none :=
  ⟨(search_arxiv_select_dominance "mu nu" "Ada King"
      [SearchEntry.mk "mu nu xi" ["Ada King"] (some "http://a/pdf"),
       SearchEntry.mk "mu nu" ["Ada King"] (some "http://b/pdf")]).1
      "http://b/pdf" (of_decide_eq_true (by with_unfolding_all rfl)),
   (search_arxiv_select_dominance "mu nu" "Ada King"
      [SearchEntry.mk "rho" ["Bob Cole"] (some "http://c/pdf")]).2
      (of_decide_eq_true (by with_unfolding_all rfl))⟩

/-- Claim C8: whenever `download_pdf` gets a response whose content type
indicates `text/html`, or whose first 100 body bytes lack the `%PDF`
signature, or whose full body is smaller than 1024 bytes, it reports
failure and afterwards no file exists at the target path (the call sites
only invoke it when the target path is free): the first two cases persist
nothing, and the small-file case removes the written artifact. -/
theorem download_pdf_rejects (filename : String) (resp : HttpResponse)
    (fs : FileSys) (hfs : fs filename = none)
    (hbad : strContains "text/html" (pyLower resp.contentType) = true
      ∨ containsSeq pdfMagic (resp.body.take 100) = false
      ∨ resp.body.length < 1024) :
    (download_pdf filename resp fs).1 = false
    ∧ (download_pdf filename resp fs).2 filename = none := by
  unfold download_pdf
  split_ifs with h200 hhtml hmagic
  · exact ⟨rfl, hfs⟩
  · by_cases hsmall : resp.body.length < 1024
    · exact ⟨by simp [hsmall], by simp [hsmall]⟩
    · exfalso
      rcases hbad with h | h | h
      · exact hhtml h
      · simp [h] at hmagic
      · exact hsmall h
  · exact ⟨rfl, hfs⟩
  · exact ⟨rfl, hfs⟩

/-- The empty filesystem used by the claim C8 witness. -/
def emptyFS : FileSys := fun _ => none

/-- Claim C8 witness: the theorem applied to a blocked `text/html`
response aimed at a free path. -/
theorem download_pdf_rejects_witness :
    emptyFS "x.pdf" = none
    ∧ strContains "text/html" (pyLower "text/html") = true
    ∧ (download_pdf "x.pdf" ⟨200, "text/html", []⟩ emptyFS).1 = false
    ∧ (download_pdf "x.pdf" ⟨200, "text/html", []⟩ emptyFS).2 "x.pdf" = none :=
  ⟨rfl, by decide,
   (download_pdf_rejects "x.pdf" ⟨200, "text/html", []⟩ emptyFS rfl
      (Or.inl (by decide))).1,
   (download_pdf_rejects "x.pdf" ⟨200, "text/html", []⟩ emptyFS rfl
      (Or.inl (by decide))).2⟩

set_option maxRecDepth 8000 in
/-- Claim C1: when a PDF already sits at the paper's deterministic target
path (paper id plus sanitized title) with size above the
minimum-plausible threshold, `download_single_paper` — in the base
orchestrator and in the ICLR variant alike — returns status `exists`
with the world untouched: the filesystem and the request log of the
returned world are exactly those of the input world (zero network
requests), and the paper's scraped metadata is preserved, only annotated. -/
theorem download_single_paper_exists (net : Net) (save_dir : String)
    (year : Nat) (paper : Paper) (w : World) :
    (∀ content, w.fs (base_pdf_path save_dir paper) = some content →
       10000 < content.length →
       download_single_paper net save_dir paper w =
         ({ paper with local_pdf_path := some (base_pdf_path save_dir paper),
                       download_status := some "exists",
                       download_method := some "existing" }, w))
    ∧ (∀ content, w.fs (iclr_pdf_path save_dir year paper) = some content →
       10000 < content.length →
       iclr_download_single_paper net save_dir year paper w =
         (("exists",
           { paper with local_pdf_path := some (iclr_pdf_path save_dir year paper),
                        download_status := some "exists" }), w)) := by
  constructor
  · intro content hfs _
    unfold download_single_paper
    rw [hfs]
  · intro content hfs hsize
    have hbig : iclr_exists_big w (iclr_pdf_path save_dir year paper) = true := by
      unfold iclr_exists_big
      rw [hfs]
      simp [hsize]
    unfold iclr_download_single_paper
    rw [hbig]
    rfl

/-- Oracles for the claim C1 witness: no scraped link, no search hit,
every download a 404. -/
def c1Net : Net := ⟨fun _ => none, fun _ _ => none, fun _ => ⟨404, "", []⟩⟩

/-- The paper of the claim C1 witness. -/
def c1Paper : Paper :=
  { id := "p1", title := "T", paper_page_url := "u", authors := "A", abstract := "" }

/-- A world whose filesystem holds a 10001-byte file at every path. -/
def c1World : World := ⟨fun _ => some (List.replicate 10001 0), []⟩

/-- Claim C1 witness: the theorem applied to a concrete paper whose
target paths hold a 10001-byte PDF. -/
theorem download_single_paper_exists_witness :
    c1World.fs (base_pdf_path "d" c1Paper) = some (List.replicate 10001 0)
    ∧ 10000 < (List.replicate 10001 (0 : Nat)).length
    ∧ download_single_paper c1Net "d" c1Paper c1World =
        ({ c1Paper with local_pdf_path := some (base_pdf_path "d" c1Paper),
                        download_status := some "exists",
                        download_method := some "existing" }, c1World)
    ∧ iclr_download_single_paper c1Net "d" 2025 c1Paper c1World =
        (("exists",
          { c1Paper with local_pdf_path := some (iclr_pdf_path "d" 2025 c1Paper),
                         download_status := some "exists" }), c1World) :=
  ⟨rfl, by norm_num [List.length_replicate],
   (download_single_paper_exists c1Net "d" 2025 c1Paper c1World).1
     (List.replicate 10001 0) rfl (by norm_num [List.length_replicate]),
   (download_single_paper_exists c1Net "d" 2025 c1Paper c1World).2
     (List.replicate 10001 0) rfl (by norm_num [List.length_replicate])⟩

/-- Claim C5 counterexample: a `search_arxiv` call starting at clock `5`
with the previous stamp at `0` and `interval = 5` whose first strategy
is blocked issues its two HTTP requests both at clock `5` — zero
seconds apart, not `≥ 5` — because the wait at base.py line 185 runs
once before the strategy loop and no wait separates the per-strategy
GETs of line 216.  So two consecutive search HTTP requests through the
same instance need not be `interval`-separated. -/
theorem search_requests_not_separated :
    (search_arxiv_call 5 1 2 ⟨5, 0⟩).1 = [5, 5]
    ∧ ((search_arxiv_call 5 1 2 ⟨5, 0⟩).1.getLastD 0)
      - ((search_arxiv_call 5 1 2 ⟨5, 0⟩).1.headD 0) < 5 :=
  of_decide_eq_true (by with_unfolding_all rfl)

/-- Claim C5 (amended): under the mocked clock, the rate limiter
separates consecutive `search_arxiv` *calls*, not individual requests:
within one call all attempted strategies issue their HTTP requests at
the same post-wait instant, `arxiv_last_request_time` is stamped with
exactly that instant — after the wait completes and before any of the
call's requests leave — and every request of the next call on the same
instance leaves at least `interval` seconds after every request of the
previous call (for any non-negative jitter draw and elapsed time). -/
theorem rate_limit_separation_of_calls (interval jitter1 jitter2 delta : ℚ)
    (k1 k2 : Nat) (s : RateState) (hj : 0 ≤ jitter2) (_hd : 0 ≤ delta) :
    (search_arxiv_call interval jitter1 k1 s).1
      = List.replicate k1 (search_arxiv_call interval jitter1 k1 s).2.last
    ∧ (search_arxiv_call interval jitter1 k1 s).2.last
      = (search_arxiv_call interval jitter1 k1 s).2.now
    ∧ ∀ t1 ∈ (search_arxiv_call interval jitter1 k1 s).1,
      ∀ t2 ∈ (search_arxiv_call interval jitter2 k2
          ⟨(search_arxiv_call interval jitter1 k1 s).2.now + delta,
           (search_arxiv_call interval jitter1 k1 s).2.last⟩).1,
        interval ≤ t2 - t1 := by
  unfold search_arxiv_call wait_for_arxiv_rate_limit
  dsimp only
  split_ifs with h1 h2 h3 <;>
    exact ⟨rfl, rfl, by
      intro t1 ht1 t2 ht2
      rw [List.eq_of_mem_replicate ht1, List.eq_of_mem_replicate ht2]
      dsimp only
      linarith⟩

/-- Claim C5 (amended) witness: the theorem applied at `interval = 5`,
jitter draws `1` and `2`, a first call of two strategy requests, a
second call of one, no elapsed time in between, from the zero state. -/
theorem rate_limit_separation_of_calls_witness :
    (0 : ℚ) ≤ 2 ∧ (0 : ℚ) ≤ 0 ∧
    ((search_arxiv_call 5 1 2 ⟨0, 0⟩).1
       = List.replicate 2 (search_arxiv_call 5 1 2 ⟨0, 0⟩).2.last
    ∧ (search_arxiv_call 5 1 2 ⟨0, 0⟩).2.last
       = (search_arxiv_call 5 1 2 ⟨0, 0⟩).2.now
    ∧ ∀ t1 ∈ (search_arxiv_call 5 1 2 ⟨0, 0⟩).1,
      ∀ t2 ∈ (search_arxiv_call 5 2 1
          ⟨(search_arxiv_call 5 1 2 ⟨0, 0⟩).2.now + 0,
           (search_arxiv_call 5 1 2 ⟨0, 0⟩).2.last⟩).1,
        (5 : ℚ) ≤ t2 - t1) :=
  ⟨by norm_num, le_refl 0,
   rate_limit_separation_of_calls 5 1 2 0 2 1 ⟨0, 0⟩ (by norm_num) (le_refl 0)⟩

/-- The interleaving refuting atomicity: both workers read the shared
timestamp before either writes it. -/
def raceSchedule : List Bool := [true, false, true, true, true, false, false, false]

/-- Claim C6 (code bug): the source has no lock around lines 174-179, so
under the schedule in which workers `A` and `B` both read
`arxiv_last_request_time = 0` at clock time `5` before either writes,
both decide no sleep is needed and both issue their requests at clock
time `5` — zero seconds apart, inside one `interval = 5` window.  An
atomically-guarded critical section, as the claim requires, would force
the second request to time `≥ 10`. -/
theorem rate_limiter_race_unsynchronized :
    (raceRun 5 1 2 raceSchedule raceInit).reqA = some 5
    ∧ (raceRun 5 1 2 raceSchedule raceInit).reqB = some 5 :=
  of_decide_eq_true (by with_unfolding_all rfl)

end OralPapers
